import Mathlib

/-
  Verification of the python-deriv-api core against its specification.

  Shallow embedding of the relevant parts of the source:
  - src/deriv_api/connection.py        (Connection)
  - src/deriv_api/subscription_manager.py (SubscriptionManager)

  Python dicts are embedded as association lists with unique keys; machine
  integers are unbounded Int (Python ints are unbounded); mutation of a dict
  is embedded by returning the new value of that dict; asynchronous tasks
  that the code schedules are embedded as explicit state-transition
  functions that also return the list of requests they transmit and the
  list of events they emit.
-/

namespace DerivApi

/-- JSON primitive values as they occur in the request and response dicts
the claims are about. Python truthiness is modelled by truthy below. -/
inductive JPrim where
  | jnull
  | jbool (b : Bool)
  | jnum (n : Int)
  | jstr (s : String)
  deriving DecidableEq

/-- Python truthiness of a primitive value. -/
def truthy : JPrim → Bool
  | JPrim.jnull => false
  | JPrim.jbool b => b
  | JPrim.jnum n => decide (n ≠ 0)
  | JPrim.jstr s => decide (s ≠ "")

/-- Truthiness of dict.get, which yields None when the key is absent. -/
def truthyOpt : Option JPrim → Bool
  | none => false
  | some v => truthy v

/-- A request dict: association list from string keys to primitive values.
Python dict keys are unique; theorems carry Nodup hypotheses where needed. -/
abbrev Req : Type := List (String × JPrim)

/-- Association-list lookup, the embedding of a Python dict read. -/
def alookup {α β : Type} [DecidableEq α] (k : α) : List (α × β) → Option β
  | [] => none
  | (k1, v) :: rest => if k1 = k then some v else alookup k rest

/-- Association-list update, the embedding of d[k] = v: replaces the
binding in place if the key exists, otherwise appends (Python dicts keep
insertion order and append new keys at the end). -/
def aset {α β : Type} [DecidableEq α] (k : α) (v : β) : List (α × β) → List (α × β)
  | [] => [(k, v)]
  | (k1, v1) :: rest => if k1 = k then (k, v) :: rest else (k1, v1) :: aset k v rest

/-- Association-list removal, the embedding of del d[k] / d.pop(k, None). -/
def aremove {α β : Type} [DecidableEq α] (k : α) : List (α × β) → List (α × β)
  | [] => []
  | (k1, v) :: rest => if k1 = k then rest else (k1, v) :: aremove k rest

/-- Modelled from the spec: utils.dict_to_cache_key is not among the
provided sources. The spec describes the fingerprint as a canonical byte
encoding of a request mapping, computed by sorting keys and serializing
deterministically, such that a request and the same request with the
core-injected keys added are the same call (the subscription manager
stores the fingerprint of the subscribe-augmented copy and later looks up
the fingerprint of the plain request, and the spec asserts those dedup
lookups hit). The keys the core itself injects are req_id and subscribe,
so the fingerprint strips them before sorting and serializing. -/
def volatileKey (k : String) : Bool := k = "req_id" || k = "subscribe"

/-- Drop the core-injected keys before fingerprinting. -/
def stripVolatile (r : Req) : Req := List.filter (fun kv => ! volatileKey kv.1) r

/-- Order on dict entries by key, used to sort fields canonically. -/
def keyLe (a b : String × JPrim) : Prop := a.1 ≤ b.1

instance : DecidableRel keyLe := fun a b => inferInstanceAs (Decidable (a.1 ≤ b.1))

instance : IsTotal (String × JPrim) keyLe := ⟨fun a b => le_total a.1 b.1⟩

instance : IsTrans (String × JPrim) keyLe := ⟨fun _ _ _ h1 h2 => le_trans h1 h2⟩

/-- Sort the fields of a request by key. -/
def sortFields (r : Req) : Req := List.insertionSort keyLe r

/-- Deterministic serialization of a primitive value. -/
def serializePrim : JPrim → String
  | JPrim.jnull => "null"
  | JPrim.jbool true => "true"
  | JPrim.jbool false => "false"
  | JPrim.jnum n => toString n
  | JPrim.jstr s => "s" ++ toString s.length ++ ":" ++ s

/-- Modelled from the spec: the request fingerprint (see volatileKey).
Sorts the non-injected keys and serializes deterministically. -/
def dict_to_cache_key (r : Req) : String :=
  String.intercalate ";"
    ((sortFields (stripVolatile r)).map (fun kv => kv.1 ++ "=" ++ serializePrim kv.2))

/-- Modelled from the spec: streams_list.py is not among the provided
sources; the spec gives the closed set of recognized stream types. -/
def streams_list : List String :=
  ["balance", "candles", "p2p_advert", "p2p_order", "proposal",
   "proposal_open_contract", "ticks", "transaction", "website_status"]

/-- get_msg_type from subscription_manager.py: the first recognized stream
name that occurs among the request keys, None otherwise. -/
def get_msg_type (request : Req) : Option String :=
  streams_list.find? (fun x => (alookup x request).isSome)

/- ===================== Connection (connection.py) ===================== -/

/-- Modelled from the spec: easy_future.py is not among the provided
sources. The spec gives the readiness states pending, open, closed;
is_pending holds in pending, is_resolved holds exactly in the open state,
and a future rejected with an error or with the closed-by-disconnect
marker is neither pending nor resolved. -/
inductive Readiness where
  | pending
  | resolvedTrue
  | rejected
  deriving DecidableEq

/-- Events emitted on the connection event stream, by source name:
evConnect is connect, evClose is close, evMessage is message,
evUnmatchedResponse is unmatched_response, evForgetSubscription is
forget_subscription, evReconnecting, evReconnectFailed, evReconnected,
evReconnectMaxRetriesExceeded mirror the reconnect loop events, and
evSleep records the asyncio.sleep delay taken inside the reconnect loop. -/
inductive Event where
  | evConnect
  | evClose
  | evMessage
  | evUnmatchedResponse
  | evForgetSubscription (subs_id : JPrim)
  | evSend
  | evConnectionClosed
  | evReconnecting (attempt : Nat)
  | evSleep (secs : Nat)
  | evReconnectFailed (attempt : Nat)
  | evReconnected
  | evReconnectMaxRetriesExceeded
  deriving DecidableEq

/-- State of one Connection object (connection.py, __init__):
wsconnection is whether the socket object is present, connected is the
EasyFuture readiness, req_id the monotonic counter, pending_requests maps
a req_id value to the is_stopped flag of its sink, receive_loop_count is
the number of receive-loop tasks started by create_task and not yet
terminated (connect stores only the newest in self.receive_task and
cancels nothing), is_closing the closing flag. -/
structure ConnState where
  wsconnection : Bool
  wsconnection_from_inside : Bool
  connected : Readiness
  req_id : Nat
  pending_requests : List (JPrim × Bool)
  receive_loop_count : Nat
  is_closing : Bool
  deriving DecidableEq

/-- The state of a freshly constructed Connection (connection.py lines
53-80): an injected socket is present and ownership stays outside,
otherwise no socket and ownership inside; counter 0, no pending sinks,
no receive loop, not closing. -/
def init_connection (injected : Bool) : ConnState :=
  { wsconnection := injected
    wsconnection_from_inside := ! injected
    connected := Readiness.pending
    req_id := 0
    pending_requests := []
    receive_loop_count := 0
    is_closing := false }

/-- Connection.connect (connection.py lines 122-143). Returns the new
state, the emitted events, and the number of sockets opened by this call.
If no socket is present and the transport owns its socket, it emits
connect and opens one; it resolves the connected future (either branch of
the is_pending test leaves it resolved with True); it then starts a fresh
receive-loop task unconditionally, without cancelling any prior one. -/
def connect (s : ConnState) : ConnState × List Event × Nat :=
  let step1 :=
    if ! s.wsconnection && s.wsconnection_from_inside then
      ({ s with wsconnection := true }, [Event.evConnect], 1)
    else (s, ([] : List Event), 0)
  let s1 := step1.1
  let s2 := { s1 with connected := Readiness.resolvedTrue }
  let s3 := { s2 with receive_loop_count := s2.receive_loop_count + 1 }
  (s3, step1.2.1, step1.2.2)

/-- Connection.disconnect (connection.py lines 145-167). Returns the new
state, the emitted events, and the number of sockets closed by this call.
Sets the closing flag; returns early if the connected future is not
resolved; otherwise replaces it by a rejected future, and iff the
transport owns the socket and one is present, emits close and closes it;
finally cancels the tracked receive task. -/
def disconnect (s : ConnState) : ConnState × List Event × Nat :=
  let s0 := { s with is_closing := true }
  if s0.connected = Readiness.resolvedTrue then
    let s1 := { s0 with connected := Readiness.rejected }
    let step :=
      if s1.wsconnection_from_inside && s1.wsconnection then
        ({ s1 with wsconnection := false }, [Event.evClose], 1)
      else (s1, ([] : List Event), 0)
    let s2 := step.1
    let s3 := { s2 with receive_loop_count := s2.receive_loop_count - 1 }
    (s3, step.2.1, step.2.2)
  else (s0, [], 0)

/-- Connection.send_and_get_source (connection.py lines 301-332), the part
that runs synchronously on the request dict and the registry: if the
request lacks req_id, the counter is incremented and the assigned id is
written in place into the request dict of the caller; the fresh sink is
registered under the req_id of the request. Returns the new connection state,
the value that the request dict of the caller holds after the call, and the req_id
value carried by the outbound frame. -/
def send_and_get_source (request : Req) (s : ConnState) : ConnState × Req × JPrim :=
  match alookup "req_id" request with
  | some v =>
      ({ s with pending_requests := aset v false s.pending_requests }, request, v)
  | none =>
      let rid := s.req_id + 1
      let ridv := JPrim.jnum (Int.ofNat rid)
      let request1 := aset "req_id" ridv request
      ({ s with req_id := rid, pending_requests := aset ridv false s.pending_requests },
       request1, ridv)

/-- The state effect of a successful pass through the reconnect loop body
(connection.py lines 253-257): a fresh socket, a resolved connected
future, and a restarted receive loop; the req_id counter is untouched. -/
def reconnect_success (s : ConnState) : ConnState :=
  { s with wsconnection := true,
           connected := Readiness.resolvedTrue,
           receive_loop_count := s.receive_loop_count + 1 }

/-- An operation performed on one connection: a send_and_get_source call,
or a successful reconnection in between. -/
inductive ConnOp where
  | opSend (request : Req)
  | opReconnectSuccess
  deriving DecidableEq

/-- Run a sequence of operations, collecting the req_id value carried by
each outbound frame in order. -/
def run_ops : List ConnOp → ConnState → ConnState × List JPrim
  | [], s => (s, [])
  | ConnOp.opSend r :: rest, s =>
      let t := send_and_get_source r s
      let rec2 := run_ops rest t.1
      (rec2.1, t.2.2 :: rec2.2)
  | ConnOp.opReconnectSuccess :: rest, s => run_ops rest (reconnect_success s)

/-- Number of send operations in a sequence. -/
def count_sends : List ConnOp → Nat
  | [] => 0
  | ConnOp.opSend _ :: rest => count_sends rest + 1
  | ConnOp.opReconnectSuccess :: rest => count_sends rest

/-- Iterate connect, summing the number of sockets opened. -/
def connect_iter : Nat → ConnState → ConnState × Nat
  | 0, s => (s, 0)
  | n + 1, s =>
      let t := connect s
      let rec2 := connect_iter n t.1
      (rec2.1, t.2.2 + rec2.2)

/-- Connection._attempt_reconnection (connection.py lines 234-282) as a
trace of events, parameterized by the outcome of each reopen attempt
(outcomes i is whether attempt number i+1 succeeds) and by the closing
flag, which the loop condition reads. retries starts at 0, the delay at
1 second, and remaining is max_retry_count minus retries. Each loop pass
emits reconnecting with attempt retries+1, sleeps the current delay, and
on failure emits reconnect_failed and doubles the delay capped at 60; on
success it emits reconnected and returns. When the loop exits, one
reconnect_max_retries_exceeded is emitted. -/
def reconnect_loop (outcomes : Nat → Bool) (is_closing : Bool) :
    Nat → Nat → Nat → List Event
  | _retries, 0, _delay => [Event.evReconnectMaxRetriesExceeded]
  | retries, rem + 1, delay =>
      if is_closing then [Event.evReconnectMaxRetriesExceeded]
      else
        Event.evReconnecting (retries + 1) :: Event.evSleep delay ::
          (if outcomes retries then [Event.evReconnected]
           else Event.evReconnectFailed (retries + 1) ::
             reconnect_loop outcomes is_closing (retries + 1) rem (min (delay * 2) 60))

/-- The full reconnect attempt: retries 0, delay 1 second. -/
def attempt_reconnection (max_retry_count : Nat) (outcomes : Nat → Bool)
    (is_closing : Bool) : List Event :=
  reconnect_loop outcomes is_closing 0 max_retry_count 1

/- ============== Inbound dispatch (Connection._process_message) ============== -/

/-- The subscription field of a response; the code reads only its id. -/
structure SubInfo where
  id : JPrim
  deriving DecidableEq

/-- An inbound response restricted to the top-level fields the core reads
(the spec closes this set: req_id, echo_req, error, subscription.id). -/
structure Response where
  req_id : Option JPrim
  echo_req : Option Req
  error : Option JPrim
  subscription : Option SubInfo
  deriving DecidableEq

/-- What _process_message does to the sinks: nothing (unmatched), error
the matched sink with a ResponseError built from the response, emit a
forget_subscription for a stale subscription, or push the response to the
matched sink as data. -/
inductive MsgAction where
  | unmatched
  | sinkError (rid : JPrim) (resp : Response)
  | forgetSub (subs_id : JPrim)
  | sinkNext (rid : JPrim) (resp : Response)
  deriving DecidableEq

/-- The parent-subscription test (connection.py line 218): the echoed
request is truthy (non-empty), proposal_open_contract is truthy, and
contract_id is absent or falsy. -/
def is_parent_subscription (request : Req) : Bool :=
  ! request.isEmpty && truthyOpt (alookup "proposal_open_contract" request)
    && ! truthyOpt (alookup "contract_id" request)

/-- Connection._process_message (connection.py lines 197-232) over one
parsed response and the registry snapshot (req_id value, is_stopped flag
of that sink). Returns the events emitted and the sink action taken. A
message event is always emitted first. If req_id is falsy or matches no
pending sink, one unmatched_response event is emitted and no sink is
touched. Otherwise, an error response for a non-parent request errors the
sink; a response for an already-stopped sink that carries a subscription
emits forget_subscription and is discarded; otherwise the response is
pushed to the sink. -/
def process_message (resp : Response) (pending : List (JPrim × Bool)) :
    List Event × MsgAction :=
  match resp.req_id with
  | none => ([Event.evMessage, Event.evUnmatchedResponse], MsgAction.unmatched)
  | some rid =>
      if ! truthy rid then
        ([Event.evMessage, Event.evUnmatchedResponse], MsgAction.unmatched)
      else
        match alookup rid pending with
        | none => ([Event.evMessage, Event.evUnmatchedResponse], MsgAction.unmatched)
        | some is_stopped =>
            let request := resp.echo_req.getD []
            if truthyOpt resp.error && ! is_parent_subscription request then
              ([Event.evMessage], MsgAction.sinkError rid resp)
            else
              match resp.subscription with
              | some sub =>
                  if is_stopped then
                    ([Event.evMessage, Event.evForgetSubscription sub.id],
                     MsgAction.forgetSub sub.id)
                  else ([Event.evMessage], MsgAction.sinkNext rid resp)
              | none => ([Event.evMessage], MsgAction.sinkNext rid resp)

/- ============== SubscriptionManager (subscription_manager.py) ============== -/

/-- The per-connection indices of the SubscriptionManager, for one fixed
connection_id after _ensure_connection_structures: each field is the inner
dict that the source selects by connection_id. Sinks are identified by
the Nat at which they were allocated (next_sink_id models object
identity); completed_sinks lists the origin sinks on which on_completed
has been called. -/
structure SMState where
  sources : List (String × Nat)
  orig_sources : List (String × Nat)
  subs_id_to_key : List (JPrim × String)
  key_to_subs_id : List (String × JPrim)
  buy_key_to_contract_id : List (String × (JPrim × String))
  subs_per_msg_type : List (String × List String)
  next_sink_id : Nat
  completed_sinks : List Nat
  deriving DecidableEq

/-- The empty per-connection indices installed by
_ensure_connection_structures. -/
def init_sm_state : SMState :=
  { sources := []
    orig_sources := []
    subs_id_to_key := []
    key_to_subs_id := []
    buy_key_to_contract_id := []
    subs_per_msg_type := []
    next_sink_id := 0
    completed_sinks := [] }

/-- SubscriptionManager.get_source (subscription_manager.py lines
123-150): look the fingerprint up in sources; otherwise scan the buy
records for one whose contract_id equals the truthy contract_id of the
request and return the source stored under that buy key. -/
def get_source (request : Req) (s : SMState) : Option Nat :=
  match alookup (dict_to_cache_key request) s.sources with
  | some src => some src
  | none =>
      match alookup "contract_id" request with
      | none => none
      | some cid =>
          if truthy cid then
            match s.buy_key_to_contract_id.find? (fun c => c.2.1 = cid) with
            | some c => alookup c.2.2 s.sources
            | none => none
          else none

/-- SubscriptionManager.source_exists (lines 152-167). -/
def source_exists (request : Req) (s : SMState) : Bool :=
  (get_source request s).isSome

/-- SubscriptionManager.save_subs_per_msg_type (lines 325-345): append
the key to the list stored under the message type of the request. -/
def save_subs_per_msg_type (request : Req) (key : String) (s : SMState) : SMState :=
  match get_msg_type request with
  | some t =>
      let updated := aset t ((alookup t s.subs_per_msg_type).getD [] ++ [key]) s.subs_per_msg_type
      { s with subs_per_msg_type := updated }
  | none => s

/-- SubscriptionManager.create_new_source (lines 169-225), the part that
runs synchronously: compute the key of the (already subscribe-augmented)
request, obtain an origin sink from send_and_get_source, derive the
shared sink from it, store both under the key, and index the key under
its message type. Returns the shared sink, the new state, and the
requests handed to the transport for transmission (exactly this one).
The scheduled first-response task is modelled separately by save_subs_id
and process_response_on_error. -/
def create_new_source (request : Req) (s : SMState) : Nat × SMState × List Req :=
  let key := dict_to_cache_key request
  let orig := s.next_sink_id
  let src := s.next_sink_id + 1
  let s1 := { s with orig_sources := aset key orig s.orig_sources,
                     sources := aset key src s.sources,
                     next_sink_id := s.next_sink_id + 2 }
  (src, save_subs_per_msg_type request key s1, [request])

/-- SubscriptionManager.subscribe (lines 88-121): reject requests with no
recognized stream type; return the existing source if one is indexed for
this request; otherwise copy the request, add subscribe 1 to the copy,
and create a new source from the copy. The result carries the requests
transmitted upstream by this call. -/
def subscribe (request : Req) (s : SMState) :
    Except String (Nat × SMState × List Req) :=
  if (get_msg_type request).isSome then
    match get_source request s with
    | some src => Except.ok (src, s, [])
    | none =>
        let new_request := aset "subscribe" (JPrim.jnum 1) request
        Except.ok (create_new_source new_request s)
  else Except.error "Subscription type is not found in deriv-api"

/-- SubscriptionManager.complete_subs_by_key (lines 361-405): if the key
is falsy or not indexed, do nothing; otherwise pop the origin sink,
delete the shared sink, remove the subs-id bindings in both directions if
present, remove the buy binding, and mark the popped origin sink
complete. -/
def complete_subs_by_key (key : String) (s : SMState) : SMState :=
  if key = "" ∨ alookup key s.sources = none then s
  else
    let orig := alookup key s.orig_sources
    let s1 := { s with orig_sources := aremove key s.orig_sources,
                       sources := aremove key s.sources }
    let s2 :=
      match alookup key s1.key_to_subs_id with
      | some subs_id =>
          { s1 with subs_id_to_key := aremove subs_id s1.subs_id_to_key,
                    key_to_subs_id := aremove key s1.key_to_subs_id }
      | none => s1
    let s3 := { s2 with buy_key_to_contract_id := aremove key s2.buy_key_to_contract_id }
    match orig with
    | some o => { s3 with completed_sinks := o :: s3.completed_sinks }
    | none => s3

/-- SubscriptionManager.complete_subs_by_ids (lines 278-297) for one id:
translate the subscription id to a key and complete by key. -/
def complete_subs_by_ids (subs_id : JPrim) (s : SMState) : SMState :=
  match alookup subs_id s.subs_id_to_key with
  | some key => complete_subs_by_key key s
  | none => s

/-- The forget request dict sent upstream. -/
def forget_request (subs_id : JPrim) : Req := [("forget", subs_id)]

/-- SubscriptionManager.forget (lines 227-245): complete the subscription
locally, then transmit one forget request carrying the subscription id. -/
def forget (subs_id : JPrim) (s : SMState) : SMState × List Req :=
  (complete_subs_by_ids subs_id s, [forget_request subs_id])

/-- forget_old_source, the teardown hook installed by create_new_source
(lines 188-197), which the shared sink runs when its subscriber count
drops to zero: if no server subscription id is recorded for the key, do
nothing; otherwise schedule forget with the recorded id. -/
def forget_old_source (key : String) (s : SMState) : SMState × List Req :=
  match alookup key s.key_to_subs_id with
  | none => (s, [])
  | some subs_id => forget subs_id s

/-- SubscriptionManager.save_subs_id (lines 299-323): with no
subscription field, complete the key; otherwise record the id in both
directions unless already recorded. -/
def save_subs_id (key : String) (subscription : Option SubInfo) (s : SMState) : SMState :=
  match subscription with
  | none => complete_subs_by_key key s
  | some sub =>
      if (alookup sub.id s.subs_id_to_key).isSome then s
      else
        { s with subs_id_to_key := aset sub.id key s.subs_id_to_key,
                 key_to_subs_id := aset key sub.id s.key_to_subs_id }

/-- SubscriptionManager.remove_key_on_error (lines 347-359): the method
body only builds and returns a closure over complete_subs_by_key; it does
not run it. -/
def remove_key_on_error (key : String) : SMState → SMState :=
  fun s => complete_subs_by_key key s

/-- The except branch of create_new_source.process_response (lines
221-222): it evaluates self.remove_key_on_error(key, connection_id),
obtaining the closure, and discards the result without calling it, so
the state is returned unchanged. -/
def process_response_on_error (key : String) (s : SMState) : SMState :=
  let _cleanup := remove_key_on_error key
  s

/- ===================== Helper lemmas ===================== -/

theorem alookup_aset_self {α β : Type} [DecidableEq α] (k : α) (v : β) :
    ∀ l : List (α × β), alookup k (aset k v l) = some v
  | [] => by simp [aset, alookup]
  | (k1, v1) :: rest => by
      by_cases h : k1 = k
      · simp [aset, alookup, h]
      · simp [aset, alookup, h, alookup_aset_self k v rest]

theorem alookup_eq_of_perm {α β : Type} [DecidableEq α] {l1 l2 : List (α × β)}
    (h : List.Perm l1 l2) :
    (l1.map Prod.fst).Nodup → ∀ k, alookup k l1 = alookup k l2 := by
  induction h with
  | nil => intro _ k; rfl
  | cons x h ih =>
      intro hnd k
      obtain ⟨k1, v1⟩ := x
      simp only [List.map_cons, List.nodup_cons] at hnd
      by_cases hk : k1 = k
      · simp [alookup, hk]
      · simp only [alookup, hk, if_false]
        exact ih hnd.2 k
  | swap x y l =>
      intro hnd k
      obtain ⟨kx, vx⟩ := x
      obtain ⟨ky, vy⟩ := y
      simp only [List.map_cons, List.nodup_cons, List.mem_cons, List.mem_map] at hnd
      have hyx : ky ≠ kx := fun he => hnd.1 (Or.inl he)
      by_cases h1 : ky = k
      · have h2 : kx ≠ k := fun he => hyx (h1.trans he.symm)
        simp [alookup, h1, h2]
      · by_cases h2 : kx = k
        · simp [alookup, h1, h2]
        · simp [alookup, h1, h2]
  | trans h1 _h2 ih1 ih2 =>
      intro hnd k
      have hnd2 := ((h1.map Prod.fst).nodup_iff).mp hnd
      exact (ih1 hnd k).trans (ih2 hnd2 k)

theorem sortFields_eq_of_perm {l1 l2 : Req} (h : List.Perm l1 l2)
    (hnd : (l1.map Prod.fst).Nodup) : sortFields l1 = sortFields l2 := by
  refine @List.Perm.eq_of_sorted _ keyLe _ _ ?_ ?_ ?_ ?_
  · intro a b ha hb hab hba
    have ha1 : a ∈ l1 := (List.perm_insertionSort keyLe l1).subset ha
    have hb1 : b ∈ l1 := h.symm.subset ((List.perm_insertionSort keyLe l2).subset hb)
    exact List.inj_on_of_nodup_map hnd ha1 hb1 (le_antisymm hab hba)
  · exact List.sorted_insertionSort keyLe l1
  · exact List.sorted_insertionSort keyLe l2
  · exact ((List.perm_insertionSort keyLe l1).trans h).trans
      (List.perm_insertionSort keyLe l2).symm

theorem stripVolatile_nodup_keys {r : Req} (hnd : (r.map Prod.fst).Nodup) :
    ((stripVolatile r).map Prod.fst).Nodup :=
  hnd.sublist (List.Sublist.map Prod.fst (List.filter_sublist r))

theorem dict_to_cache_key_eq_of_perm {r1 r2 : Req} (h : List.Perm r1 r2)
    (hnd : (r1.map Prod.fst).Nodup) : dict_to_cache_key r1 = dict_to_cache_key r2 := by
  unfold dict_to_cache_key
  rw [show sortFields (stripVolatile r1) = sortFields (stripVolatile r2) from
    sortFields_eq_of_perm (h.filter _) (stripVolatile_nodup_keys hnd)]

theorem stripVolatile_aset_volatile (k : String) (hk : volatileKey k = true)
    (v : JPrim) : ∀ r : Req, stripVolatile (aset k v r) = stripVolatile r
  | [] => by simp [aset, stripVolatile, List.filter, hk]
  | (k1, v1) :: rest => by
      by_cases h : k1 = k
      · subst h
        simp [aset, stripVolatile, List.filter, hk]
      · simp only [aset, h, if_false, stripVolatile, List.filter]
        have ih := stripVolatile_aset_volatile k hk v rest
        simp only [stripVolatile] at ih
        rw [ih]

theorem dict_to_cache_key_aset_subscribe (v : JPrim) (r : Req) :
    dict_to_cache_key (aset "subscribe" v r) = dict_to_cache_key r := by
  unfold dict_to_cache_key
  rw [stripVolatile_aset_volatile "subscribe" rfl v r]

theorem get_msg_type_eq_of_perm {r1 r2 : Req} (h : List.Perm r1 r2)
    (hnd : (r1.map Prod.fst).Nodup) : get_msg_type r1 = get_msg_type r2 := by
  unfold get_msg_type
  have hf : (fun x => (alookup x r1).isSome) = (fun x => (alookup x r2).isSome) := by
    funext x
    rw [alookup_eq_of_perm h hnd x]
  rw [hf]

theorem save_subs_per_msg_type_sources (request : Req) (key : String) (s : SMState) :
    (save_subs_per_msg_type request key s).sources = s.sources := by
  unfold save_subs_per_msg_type
  cases get_msg_type request <;> rfl

theorem connect_open (s : ConnState) (h : s.wsconnection = true) :
    connect s = ({ s with connected := Readiness.resolvedTrue,
                          receive_loop_count := s.receive_loop_count + 1 }, [], 0) := by
  simp [connect, h]

theorem connect_iter_open : ∀ (n : Nat) (s : ConnState), s.wsconnection = true →
    (connect_iter n s).1.receive_loop_count = s.receive_loop_count + n ∧
    (connect_iter n s).2 = 0 ∧ (connect_iter n s).1.wsconnection = true
  | 0, s, _h => ⟨rfl, rfl, by assumption⟩
  | n + 1, s, h => by
      have hc := connect_open s h
      have hw : (connect s).1.wsconnection = true := by rw [hc]; exact h
      have ih := connect_iter_open n (connect s).1 hw
      simp only [connect_iter]
      refine ⟨?_, ?_, ih.2.2⟩
      · rw [ih.1, hc]
        show s.receive_loop_count + 1 + n = s.receive_loop_count + (n + 1)
        omega
      · rw [ih.2.1, hc]

theorem run_ops_assigned : ∀ (ops : List ConnOp) (s : ConnState),
    (∀ r, ConnOp.opSend r ∈ ops → alookup "req_id" r = none) →
    (run_ops ops s).2 =
      (List.range' (s.req_id + 1) (count_sends ops)).map
        (fun k => JPrim.jnum (Int.ofNat k))
  | [], s, _h => rfl
  | ConnOp.opSend r :: rest, s, h => by
      have hr : alookup "req_id" r = none := h r (List.mem_cons_self _ _)
      have ih := run_ops_assigned rest
        { s with req_id := s.req_id + 1,
                 pending_requests :=
                   aset (JPrim.jnum (Int.ofNat (s.req_id + 1))) false s.pending_requests }
        (fun r2 hm => h r2 (List.mem_cons_of_mem _ hm))
      simp only [run_ops, send_and_get_source, hr, count_sends]
      rw [ih, List.range'_succ]
      rfl
  | ConnOp.opReconnectSuccess :: rest, s, h => by
      have ih := run_ops_assigned rest (reconnect_success s)
        (fun r2 hm => h r2 (List.mem_cons_of_mem _ hm))
      simp only [run_ops, count_sends]
      exact ih

/- ===================== Claim theorems ===================== -/

/-- Claim C4: for every sequence of send calls on one connection in which
no request carries an explicit req_id, the assigned req_ids form the
strictly increasing sequence 1, 2, 3, ...; req_ids are never reused
within the connection lifetime, including across reconnects interleaved
anywhere in the sequence. -/
theorem send_req_ids_monotone_from_one (ops : List ConnOp) (injected : Bool)
    (h : ∀ r, ConnOp.opSend r ∈ ops → alookup "req_id" r = none) :
    (run_ops ops (init_connection injected)).2 =
      (List.range' 1 (count_sends ops)).map (fun k => JPrim.jnum (Int.ofNat k)) ∧
    ((run_ops ops (init_connection injected)).2).Nodup := by
  have hmain := run_ops_assigned ops (init_connection injected) h
  have hinit : (init_connection injected).req_id + 1 = 1 := rfl
  rw [hinit] at hmain
  refine ⟨hmain, ?_⟩
  rw [hmain]
  refine List.Nodup.map ?_ (List.nodup_range' 1 (count_sends ops))
  intro a b he
  simpa using he

/-- A sample operation sequence: two plain sends with a successful
reconnection in between. -/
def demo_ops : List ConnOp :=
  [ConnOp.opSend [("ping", JPrim.jnum 1)], ConnOp.opReconnectSuccess,
   ConnOp.opSend [("ticks", JPrim.jstr "R_100")]]

theorem send_req_ids_monotone_from_one_witness :
    (run_ops demo_ops (init_connection false)).2 = [JPrim.jnum 1, JPrim.jnum 2] ∧
    ((run_ops demo_ops (init_connection false)).2).Nodup := by
  have h := send_req_ids_monotone_from_one demo_ops false ?hside
  · refine ⟨?_, h.2⟩
    rw [h.1]
    rfl
  case hside =>
    intro r hm
    simp only [demo_ops, List.mem_cons, List.not_mem_nil, or_false] at hm
    rcases hm with hm | hm | hm
    · cases hm; decide
    · cases hm
    · cases hm; decide

/-- Claim C5 counterexample: connect() is not idempotent with respect to
the receive loop. Two connect() calls on a fresh owned-socket connection
leave two receive-loop tasks running, not at most one: each call executes
create_task on _receive_messages without cancelling the previous task. -/
theorem connect_twice_leaves_two_receive_loops :
    ¬ ((connect (connect (init_connection false)).1).1.receive_loop_count ≤ 1) := by
  decide

/-- Claim C5 as amended: repeated connect() never reopens an already-open
socket — across any n+1 calls on a fresh owned-socket connection exactly
one socket open happens — but each call starts an additional receive-loop
task, so n+1 calls leave n+1 receive loops running. -/
theorem connect_single_open_many_loops (n : Nat) :
    (connect_iter (n + 1) (init_connection false)).2 = 1 ∧
    (connect_iter (n + 1) (init_connection false)).1.receive_loop_count = n + 1 := by
  have h1 : (connect (init_connection false)).1.wsconnection = true := rfl
  have hopen := connect_iter_open n (connect (init_connection false)).1 h1
  constructor
  · show (connect (init_connection false)).2.2
        + (connect_iter n (connect (init_connection false)).1).2 = 1
    rw [hopen.2.1]
    rfl
  · show (connect_iter n (connect (init_connection false)).1).1.receive_loop_count = n + 1
    rw [hopen.1]
    show 1 + n = n + 1
    omega

/-- Claim C9: disconnect() is idempotent — from a connected state with a
socket present, two disconnect() calls emit exactly one close event when
the transport owns the socket and none otherwise, close exactly one
socket iff the transport owns it (an injected socket is never closed),
and the second call emits nothing at all. -/
theorem disconnect_idempotent_close_once (s : ConnState)
    (h1 : s.connected = Readiness.resolvedTrue) (h2 : s.wsconnection = true) :
    ((disconnect s).2.1 ++ (disconnect (disconnect s).1).2.1).count Event.evClose
        = (if s.wsconnection_from_inside then 1 else 0) ∧
    (disconnect s).2.2 + (disconnect (disconnect s).1).2.2
        = (if s.wsconnection_from_inside then 1 else 0) ∧
    (disconnect (disconnect s).1).2.1 = [] := by
  by_cases ho : s.wsconnection_from_inside
  · simp [disconnect, h1, h2, ho, List.count_cons]
  · simp [disconnect, h1, h2, ho]

/-- A connected owned-socket connection state. -/
def demo_conn_state : ConnState :=
  { wsconnection := true
    wsconnection_from_inside := true
    connected := Readiness.resolvedTrue
    req_id := 3
    pending_requests := []
    receive_loop_count := 1
    is_closing := false }

theorem disconnect_idempotent_close_once_witness :
    ((disconnect demo_conn_state).2.1
        ++ (disconnect (disconnect demo_conn_state).1).2.1).count Event.evClose = 1 ∧
    (disconnect demo_conn_state).2.2 + (disconnect (disconnect demo_conn_state).1).2.2 = 1 ∧
    (disconnect (disconnect demo_conn_state).1).2.1 = [] := by
  simpa using disconnect_idempotent_close_once demo_conn_state rfl rfl

/-- Claim C8: an inbound frame whose req_id is absent or matches no
pending sink produces exactly the message event plus one
unmatched_response event, and no sink receives a value, an error, or a
completion from the frame. -/
theorem unmatched_response_single_event_no_sink (resp : Response)
    (pending : List (JPrim × Bool))
    (h : resp.req_id = none ∨
         ∃ rid, resp.req_id = some rid ∧ alookup rid pending = none) :
    process_message resp pending
      = ([Event.evMessage, Event.evUnmatchedResponse], MsgAction.unmatched) := by
  rcases h with h | ⟨rid, hr, hl⟩
  · simp [process_message, h]
  · simp only [process_message, hr]
    by_cases ht : truthy rid
    · simp [ht, hl]
    · simp [ht]

/-- A frame carrying a req_id registered for no sink. -/
def demo_unmatched_resp : Response :=
  { req_id := some (JPrim.jnum 9999)
    echo_req := none
    error := none
    subscription := none }

theorem unmatched_response_single_event_no_sink_witness :
    process_message demo_unmatched_resp [(JPrim.jnum 1, false)]
      = ([Event.evMessage, Event.evUnmatchedResponse], MsgAction.unmatched) :=
  unmatched_response_single_event_no_sink demo_unmatched_resp [(JPrim.jnum 1, false)]
    (Or.inr ⟨JPrim.jnum 9999, rfl, by decide⟩)

/-- Claim C6: for a matched error response, if the echoed request is a
parent proposal_open_contract subscription the sink is never errored and
— unless the sink is already stopped — the response is pushed to the sink
as data; for every other request the sink is errored with a ResponseError
built from the response. -/
theorem parent_error_as_data_else_sink_error (resp : Response)
    (pending : List (JPrim × Bool)) (rid : JPrim) (stopped : Bool)
    (hr : resp.req_id = some rid) (ht : truthy rid = true)
    (hp : alookup rid pending = some stopped)
    (he : truthyOpt resp.error = true) :
    (is_parent_subscription (resp.echo_req.getD []) = true →
       ((∀ r2 e2, (process_message resp pending).2 ≠ MsgAction.sinkError r2 e2) ∧
        (stopped = false →
          (process_message resp pending).2 = MsgAction.sinkNext rid resp))) ∧
    (is_parent_subscription (resp.echo_req.getD []) = false →
       (process_message resp pending).2 = MsgAction.sinkError rid resp) := by
  constructor
  · intro hpar
    constructor
    · intro r2 e2
      cases hs : resp.subscription with
      | some sub =>
          cases stopped <;> simp [process_message, hr, ht, hp, he, hpar, hs]
      | none => simp [process_message, hr, ht, hp, he, hpar, hs]
    · intro hst
      cases hs : resp.subscription with
      | some sub => simp [process_message, hr, ht, hp, he, hpar, hs, hst]
      | none => simp [process_message, hr, ht, hp, he, hpar, hs, hst]
  · intro hpar
    simp [process_message, hr, ht, hp, he, hpar]

/-- A parent proposal_open_contract subscription response carrying an
error element. -/
def demo_parent_resp : Response :=
  { req_id := some (JPrim.jnum 1)
    echo_req := some [("proposal_open_contract", JPrim.jnum 1), ("subscribe", JPrim.jnum 1)]
    error := some (JPrim.jstr "ContractValidationError")
    subscription := none }

/-- An ordinary request response carrying an error. -/
def demo_plain_resp : Response :=
  { req_id := some (JPrim.jnum 1)
    echo_req := some [("ticks", JPrim.jstr "R_100")]
    error := some (JPrim.jstr "MarketIsClosed")
    subscription := none }

theorem parent_error_as_data_else_sink_error_witness :
    (process_message demo_parent_resp [(JPrim.jnum 1, false)]).2
      = MsgAction.sinkNext (JPrim.jnum 1) demo_parent_resp ∧
    (process_message demo_plain_resp [(JPrim.jnum 1, false)]).2
      = MsgAction.sinkError (JPrim.jnum 1) demo_plain_resp :=
  ⟨((parent_error_as_data_else_sink_error demo_parent_resp [(JPrim.jnum 1, false)]
      (JPrim.jnum 1) false rfl (by decide) (by decide) (by decide)).1 (by decide)).2 rfl,
   (parent_error_as_data_else_sink_error demo_plain_resp [(JPrim.jnum 1, false)]
      (JPrim.jnum 1) false rfl (by decide) (by decide) (by decide)).2 (by decide)⟩

/-- Claim C7: with default settings (max_retry_count 5) and every reopen
attempt failing, the reconnect loop sleeps exactly 1, 2, 4, 8, 16 seconds
before attempts 1 through 5, the delay doubling after each failed
attempt; no 6th attempt is made and exactly one
reconnect_max_retries_exceeded event ends the trace. -/
theorem reconnect_backoff_default_trace :
    attempt_reconnection 5 (fun _ => false) false =
      [Event.evReconnecting 1, Event.evSleep 1, Event.evReconnectFailed 1,
       Event.evReconnecting 2, Event.evSleep 2, Event.evReconnectFailed 2,
       Event.evReconnecting 3, Event.evSleep 4, Event.evReconnectFailed 3,
       Event.evReconnecting 4, Event.evSleep 8, Event.evReconnectFailed 4,
       Event.evReconnecting 5, Event.evSleep 16, Event.evReconnectFailed 5,
       Event.evReconnectMaxRetriesExceeded] ∧
    (attempt_reconnection 5 (fun _ => false) false).count
        Event.evReconnectMaxRetriesExceeded = 1 := by
  constructor <;> rfl

theorem create_new_source_eq (request : Req) (s : SMState) :
    create_new_source request s =
      (s.next_sink_id + 1,
       save_subs_per_msg_type request (dict_to_cache_key request)
         { s with orig_sources :=
                    aset (dict_to_cache_key request) s.next_sink_id s.orig_sources,
                  sources :=
                    aset (dict_to_cache_key request) (s.next_sink_id + 1) s.sources,
                  next_sink_id := s.next_sink_id + 2 },
       [request]) := rfl

theorem create_new_source_sources (request : Req) (s : SMState) :
    (create_new_source request s).2.1.sources
      = aset (dict_to_cache_key request) (s.next_sink_id + 1) s.sources := by
  rw [create_new_source_eq]
  show (save_subs_per_msg_type request (dict_to_cache_key request) _).sources = _
  rw [save_subs_per_msg_type_sources]

/-- Claim C1: two subscribe calls with the same request content (the same
key-value pairs, in any order, with unique keys) on one connection yield
equal fingerprints, return the same shared-sink object, and transmit
exactly one upstream subscribe request: the first call transmits the one
subscribe-augmented copy, the second short-circuits on the stored source
and transmits nothing, leaving the state unchanged. -/
theorem subscribe_dedup_single_upstream (r1 r2 : Req) (s : SMState)
    (hperm : List.Perm r1 r2) (hnd : (r1.map Prod.fst).Nodup)
    (hmsg : (get_msg_type r1).isSome = true)
    (hnew : get_source r1 s = none) :
    dict_to_cache_key r1 = dict_to_cache_key r2 ∧
    ∃ src s1 wire,
      subscribe r1 s = Except.ok (src, s1, [wire]) ∧
      subscribe r2 s1 = Except.ok (src, s1, []) := by
  have hfp : dict_to_cache_key r1 = dict_to_cache_key r2 :=
    dict_to_cache_key_eq_of_perm hperm hnd
  refine ⟨hfp, (create_new_source (aset "subscribe" (JPrim.jnum 1) r1) s).1,
          (create_new_source (aset "subscribe" (JPrim.jnum 1) r1) s).2.1,
          aset "subscribe" (JPrim.jnum 1) r1, ?_, ?_⟩
  · simp only [subscribe, hmsg, if_true, hnew]
    rfl
  · have hmsg2 : (get_msg_type r2).isSome = true := by
      rw [← get_msg_type_eq_of_perm hperm hnd]
      exact hmsg
    have hkey : dict_to_cache_key r2
        = dict_to_cache_key (aset "subscribe" (JPrim.jnum 1) r1) := by
      rw [dict_to_cache_key_aset_subscribe, ← hfp]
    have hsrc : get_source r2 ((create_new_source (aset "subscribe" (JPrim.jnum 1) r1) s).2.1)
        = some ((create_new_source (aset "subscribe" (JPrim.jnum 1) r1) s).1) := by
      unfold get_source
      rw [hkey, create_new_source_sources, alookup_aset_self]
      rfl
    simp only [subscribe, hmsg2, if_true, hsrc]

/-- A plain tick subscription request and a permutation of it. -/
def demo_r1 : Req := [("ticks", JPrim.jstr "R_100"), ("style", JPrim.jstr "ticks")]

/-- The same request content in the other key order. -/
def demo_r2 : Req := [("style", JPrim.jstr "ticks"), ("ticks", JPrim.jstr "R_100")]

theorem subscribe_dedup_single_upstream_witness :
    dict_to_cache_key demo_r1 = dict_to_cache_key demo_r2 ∧
    ∃ src s1 wire,
      subscribe demo_r1 init_sm_state = Except.ok (src, s1, [wire]) ∧
      subscribe demo_r2 s1 = Except.ok (src, s1, []) :=
  subscribe_dedup_single_upstream demo_r1 demo_r2 init_sm_state
    (by decide) (by decide) (by decide) (by decide)

/-- Claim C2: the teardown hook that runs when the shared-sink subscriber
count drops from 1 to 0 transmits exactly one forget request carrying the
recorded server subscription id when one is recorded for the fingerprint,
and transmits nothing when none is recorded. -/
theorem teardown_forget_iff_subs_id_known (key : String) (s : SMState) :
    (∀ subs_id, alookup key s.key_to_subs_id = some subs_id →
       (forget_old_source key s).2 = [forget_request subs_id]) ∧
    (alookup key s.key_to_subs_id = none → (forget_old_source key s).2 = []) := by
  constructor
  · intro subs_id hl
    simp [forget_old_source, hl, forget]
  · intro hl
    simp [forget_old_source, hl]

/-- Indices with a recorded server subscription id for key k1. -/
def demo_sm_known : SMState :=
  { init_sm_state with
      sources := [("k1", 1)]
      orig_sources := [("k1", 0)]
      key_to_subs_id := [("k1", JPrim.jstr "abc")]
      subs_id_to_key := [(JPrim.jstr "abc", "k1")] }

theorem teardown_forget_iff_subs_id_known_witness :
    (forget_old_source "k1" demo_sm_known).2 = [forget_request (JPrim.jstr "abc")] ∧
    (forget_old_source "k1" init_sm_state).2 = [] :=
  ⟨(teardown_forget_iff_subs_id_known "k1" demo_sm_known).1 (JPrim.jstr "abc") (by decide),
   (teardown_forget_iff_subs_id_known "k1" init_sm_state).2 (by decide)⟩

/-- The request of a fresh tick subscription. -/
def demo_sub_request : Req := [("ticks", JPrim.jstr "R_100")]

/-- The subscribe-augmented copy create_new_source receives. -/
def demo_wire_request : Req := aset "subscribe" (JPrim.jnum 1) demo_sub_request

/-- Its fingerprint. -/
def demo_key : String := dict_to_cache_key demo_wire_request

/-- The indices right after create_new_source stored the new
subscription, when the first-response task starts waiting. -/
def demo_state_after_subscribe : SMState :=
  (create_new_source demo_wire_request init_sm_state).2.1

/-- Claim C3 evaluated at the failing input: when the first-response
extraction ends in an error, the except branch of process_response calls
remove_key_on_error, which only builds and returns the cleanup closure,
so the state is returned unchanged: the shared-sink index still holds the
fingerprint and no origin sink was marked complete, whereas the
documented cleanup complete_subs_by_key would have removed the index and
completed origin sink 0. -/
theorem first_response_error_leaves_indices_untouched :
    process_response_on_error demo_key demo_state_after_subscribe
        = demo_state_after_subscribe ∧
    alookup demo_key demo_state_after_subscribe.sources = some 1 ∧
    demo_state_after_subscribe.completed_sinks = [] ∧
    alookup demo_key (complete_subs_by_key demo_key demo_state_after_subscribe).sources
        = none ∧
    (complete_subs_by_key demo_key demo_state_after_subscribe).completed_sinks = [0] := by
  refine ⟨rfl, ?_, rfl, ?_, ?_⟩ <;> decide

/-- Claim C10: a subscribe call leaves the request dict of the caller
unmodified — the one upstream request is the subscribe-augmented copy, a
different dict — whereas a direct send_and_get_source call on a request
lacking req_id mutates the dict of the caller in place by writing the
assigned req_id into it. -/
theorem subscribe_copies_send_mutates (r : Req) (s : SMState) (c : ConnState)
    (hrid : alookup "req_id" r = none)
    (hsub : alookup "subscribe" r = none)
    (hmsg : (get_msg_type r).isSome = true)
    (hnew : get_source r s = none) :
    (∃ src s1,
       subscribe r s = Except.ok (src, s1, [aset "subscribe" (JPrim.jnum 1) r]) ∧
       aset "subscribe" (JPrim.jnum 1) r ≠ r) ∧
    ((send_and_get_source r c).2.1
        = aset "req_id" (JPrim.jnum (Int.ofNat (c.req_id + 1))) r ∧
     (send_and_get_source r c).2.1 ≠ r) := by
  constructor
  · refine ⟨(create_new_source (aset "subscribe" (JPrim.jnum 1) r) s).1,
            (create_new_source (aset "subscribe" (JPrim.jnum 1) r) s).2.1, ?_, ?_⟩
    · simp only [subscribe, hmsg, if_true, hnew]
      rfl
    · intro he
      have hv : alookup "subscribe" (aset "subscribe" (JPrim.jnum 1) r)
          = alookup "subscribe" r := by rw [he]
      rw [alookup_aset_self, hsub] at hv
      exact Option.noConfusion hv
  · have hs : (send_and_get_source r c).2.1
        = aset "req_id" (JPrim.jnum (Int.ofNat (c.req_id + 1))) r := by
      simp [send_and_get_source, hrid]
    refine ⟨hs, ?_⟩
    intro he
    rw [hs] at he
    have hv : alookup "req_id" (aset "req_id" (JPrim.jnum (Int.ofNat (c.req_id + 1))) r)
        = alookup "req_id" r := by rw [he]
    rw [alookup_aset_self, hrid] at hv
    exact Option.noConfusion hv

theorem subscribe_copies_send_mutates_witness :
    (∃ src s1,
       subscribe demo_sub_request init_sm_state
           = Except.ok (src, s1, [aset "subscribe" (JPrim.jnum 1) demo_sub_request]) ∧
       aset "subscribe" (JPrim.jnum 1) demo_sub_request ≠ demo_sub_request) ∧
    ((send_and_get_source demo_sub_request (init_connection false)).2.1
        = aset "req_id" (JPrim.jnum (Int.ofNat 1)) demo_sub_request ∧
     (send_and_get_source demo_sub_request (init_connection false)).2.1
        ≠ demo_sub_request) := by
  have h := subscribe_copies_send_mutates demo_sub_request init_sm_state
    (init_connection false) (by decide) (by decide) (by decide) (by decide)
  simpa using h

end DerivApi
